import Mathlib

/-!
Shallow embedding of the FPS-Engine character controller
(src/player/Player.js and src/player/Movement.js).

JavaScript floating-point numbers are modelled as real numbers; three.js
Vector3 is modelled as a record of three reals with the same componentwise
operations (length is the Euclidean norm, normalize divides by the length).
The physics body is external to the core: its velocity is the mutable
vector the controller writes, mirrored here as a field of the state, and
its onGround flag is a per-tick input.  performance.now() is sampled once
per tick in the source; it is passed here as the tick time t.  The
write-only mirrors player.position / player.velocity are omitted: nothing
in the controller reads them.
-/

noncomputable section

namespace FPS

/-- three.js Vector3, componentwise over the reals. -/
@[ext] structure Vec3 where
  x : ℝ
  y : ℝ
  z : ℝ

instance : Add Vec3 := ⟨fun a b => ⟨a.x + b.x, a.y + b.y, a.z + b.z⟩⟩

instance : Sub Vec3 := ⟨fun a b => ⟨a.x - b.x, a.y - b.y, a.z - b.z⟩⟩

instance : SMul ℝ Vec3 := ⟨fun c v => ⟨c * v.x, c * v.y, c * v.z⟩⟩

instance : Zero Vec3 := ⟨⟨0, 0, 0⟩⟩

@[simp] theorem Vec3.add_x (a b : Vec3) : (a + b).x = a.x + b.x := rfl

@[simp] theorem Vec3.add_y (a b : Vec3) : (a + b).y = a.y + b.y := rfl

@[simp] theorem Vec3.add_z (a b : Vec3) : (a + b).z = a.z + b.z := rfl

@[simp] theorem Vec3.sub_x (a b : Vec3) : (a - b).x = a.x - b.x := rfl

@[simp] theorem Vec3.sub_y (a b : Vec3) : (a - b).y = a.y - b.y := rfl

@[simp] theorem Vec3.sub_z (a b : Vec3) : (a - b).z = a.z - b.z := rfl

@[simp] theorem Vec3.smul_x (c : ℝ) (v : Vec3) : (c • v).x = c * v.x := rfl

@[simp] theorem Vec3.smul_y (c : ℝ) (v : Vec3) : (c • v).y = c * v.y := rfl

@[simp] theorem Vec3.smul_z (c : ℝ) (v : Vec3) : (c • v).z = c * v.z := rfl

@[simp] theorem Vec3.zero_x : (0 : Vec3).x = 0 := rfl

@[simp] theorem Vec3.zero_y : (0 : Vec3).y = 0 := rfl

@[simp] theorem Vec3.zero_z : (0 : Vec3).z = 0 := rfl

/-- three.js Vector3.dot. -/
def Vec3.dot (a b : Vec3) : ℝ := a.x * b.x + a.y * b.y + a.z * b.z

/-- three.js Vector3.lengthSq. -/
def Vec3.lengthSq (v : Vec3) : ℝ := v.x * v.x + v.y * v.y + v.z * v.z

/-- three.js Vector3.length. -/
def Vec3.length (v : Vec3) : ℝ := Real.sqrt v.lengthSq

/-- three.js Vector3.normalize: divide by the length. -/
def Vec3.normalize (v : Vec3) : Vec3 := (1 / v.length) • v

/- Movement tuning constants (Movement.js constructor). -/

def walkSpeed : ℝ := 6

def runSpeed : ℝ := 10

def maxSpeed : ℝ := 12

def groundAcceleration : ℝ := 150

def airAcceleration : ℝ := 20

def groundFriction : ℝ := 0.5

def airFriction : ℝ := 0.05

def momentumRetention : ℝ := 0.9

def dirChangeBoostMultiplier : ℝ := 4

def jumpForce : ℝ := 7.5

def jumpBoostForward : ℝ := 0.2

def airControl : ℝ := 0.9

def directionChangeThreshold : ℝ := 0.85

/- Player jump tuning (Player.js constructor; the cooldown and the
direction-change decay window are literals 100 in the source). -/

def jumpBufferWindow : ℝ := 200

def coyoteTime : ℝ := 150

def jumpCooldown : ℝ := 100

def dirChangeWindow : ℝ := 100

/-- The controller state: the Player fields that the per-tick logic reads
or writes, together with the physics body velocity it mutates and the
Movement sub-state.  maxJumps is engine.config.maxJumps with fallback 2. -/
structure PlayerState where
  velocity : Vec3
  onGround : Bool
  isJumping : Bool
  isSprinting : Bool
  jumpCount : ℤ
  maxJumps : ℤ
  lastJumpTime : ℝ
  jumpRequested : Bool
  jumpBufferTime : ℝ
  lastGroundedTime : ℝ
  viewYaw : ℝ
  moveDirection : Vec3
  targetVelocity : Vec3
  lastMoveInput : Vec3
  lastDirection : Vec3
  lastSpeed : ℝ
  hasChangedDirection : Bool
  directionChangeTime : ℝ

/-- Horizontal speed of the physics body: length of the velocity with the
Y component zeroed, as computed throughout Movement.js. -/
def horizSpeed (s : PlayerState) : ℝ := Vec3.length ⟨s.velocity.x, 0, s.velocity.z⟩

/-- Movement.applyJumpBoost: arm the one-shot forward-boost flag, only
when the move direction is nonzero and the player is on the ground. -/
def applyJumpBoost (s : PlayerState) : PlayerState :=
  if s.moveDirection.lengthSq > 0 ∧ s.onGround = true then
    { s with isJumping := true }
  else s

/-- Player.processJump: returns whether a jump fired, and the new state. -/
def processJump (t : ℝ) (s : PlayerState) : Bool × PlayerState :=
  let inCoyoteTime := t - s.lastGroundedTime < coyoteTime
  let canFirstJump := s.onGround = true ∨ inCoyoteTime
  if t - s.lastJumpTime < jumpCooldown then
    (false, s)
  else if canFirstJump ∧ s.jumpCount = 0 then
    (true, applyJumpBoost
      { s with velocity := ⟨s.velocity.x, jumpForce, s.velocity.z⟩,
               jumpCount := 1, lastJumpTime := t })
  else if ¬canFirstJump ∧ s.jumpCount < s.maxJumps then
    (true,
      { s with velocity := ⟨s.velocity.x, jumpForce * 0.9, s.velocity.z⟩,
               jumpCount := s.jumpCount + 1, lastJumpTime := t })
  else
    (false, s)

/-- Player.update, ground-state bookkeeping block: mirror onGround from
the physics body, reset the jump count on a landing edge, record the time
on a leaving edge. -/
def trackGround (t : ℝ) (bodyOnGround : Bool) (s : PlayerState) : PlayerState :=
  let wasOnGround := s.onGround
  let s1 := { s with onGround := bodyOnGround }
  let s2 := if s1.onGround = true ∧ wasOnGround = false then
      { s1 with jumpCount := 0 } else s1
  if s2.onGround = false ∧ wasOnGround = true then
    { s2 with lastGroundedTime := t } else s2

/-- Player.update, jump-buffer block: process a pending request while the
buffer window is open, clear it on success or on expiry. -/
def jumpPhase (t : ℝ) (s : PlayerState) : PlayerState :=
  if s.jumpRequested = true then
    if t - s.jumpBufferTime < jumpBufferWindow then
      let r := processJump t s
      if r.1 = true then { r.2 with jumpRequested := false } else r.2
    else
      { s with jumpRequested := false }
  else s

/-- Movement.calculateMoveDirection: rotate the forward (0,0,-1) and
right (1,0,0) basis vectors by the view yaw about Y, flatten and
normalize them, combine with the input, and normalize the result. -/
def calculateMoveDirection (moveInput : Vec3) (s : PlayerState) : PlayerState :=
  let forward0 : Vec3 := ⟨-Real.sin s.viewYaw, 0, -Real.cos s.viewYaw⟩
  let right0 : Vec3 := ⟨Real.cos s.viewYaw, 0, -Real.sin s.viewYaw⟩
  let forward := if forward0.lengthSq > 0 then forward0.normalize else forward0
  let right := if right0.lengthSq > 0 then right0.normalize else right0
  let md0 := (0 : Vec3) + (-moveInput.z) • forward + moveInput.x • right
  let md := if md0.lengthSq > 0 then md0.normalize else md0
  { s with moveDirection := md }

/-- Movement.detectDirectionChange: sticky direction-change flag with a
100 ms decay window. -/
def detectDirectionChange (t : ℝ) (s : PlayerState) : PlayerState :=
  if s.lastDirection.lengthSq = 0 then
    { s with hasChangedDirection := false }
  else
    let dotProduct := s.lastDirection.dot s.moveDirection
    if dotProduct < directionChangeThreshold then
      { s with hasChangedDirection := true, directionChangeTime := t }
    else
      { s with hasChangedDirection :=
          if t - s.directionChangeTime < dirChangeWindow then
            s.hasChangedDirection
          else false }

/-- The new horizontal velocity computed by
Movement.applyAccelerationWithMomentum before the maximum-speed cap:
momentum-preserving blend when the direction just changed at speed, else
the accelerated regime with the clamped step factor min(accel*dt, 1). -/
def preCapVelocity (dt : ℝ) (s : PlayerState) : Vec3 :=
  let currentVelocity : Vec3 := ⟨s.velocity.x, 0, s.velocity.z⟩
  let currentSpeed := currentVelocity.length
  if s.hasChangedDirection = true ∧ currentSpeed > 2 then
    momentumRetention • currentVelocity +
      (1 - momentumRetention) • s.targetVelocity
  else
    let accel0 := if s.onGround = true then groundAcceleration else airAcceleration
    let accel1 := if currentSpeed < 2 ∨ s.hasChangedDirection = true then
        accel0 * dirChangeBoostMultiplier else accel0
    let accel := if s.onGround = false then accel1 * airControl else accel1
    currentVelocity + min (accel * dt) 1 • (s.targetVelocity - currentVelocity)

/-- The maximum-speed cap of Movement.applyAccelerationWithMomentum:
rescale to maxSpeed when the magnitude exceeds it. -/
def capVelocity (v : Vec3) : Vec3 :=
  if v.length > maxSpeed then (maxSpeed / v.length) • v else v

/-- Movement.applyAccelerationWithMomentum: write the capped new
horizontal velocity into X and Z, then consume the one-shot jump boost. -/
def applyAccelerationWithMomentum (dt : ℝ) (s : PlayerState) : PlayerState :=
  let newVelocity := capVelocity (preCapVelocity dt s)
  let s1 := { s with velocity := ⟨newVelocity.x, s.velocity.y, newVelocity.z⟩ }
  if s1.isJumping = true ∧ s1.jumpCount = 1 then
    let forwardBoost := (jumpBoostForward * walkSpeed) • s1.moveDirection
    { s1 with
      velocity := ⟨s1.velocity.x + forwardBoost.x, s1.velocity.y,
                   s1.velocity.z + forwardBoost.z⟩,
      isJumping := false }
  else s1

/-- Movement.applyFriction: snap to zero under the negligible threshold,
else damp both horizontal components by max(0, 1 - friction*dt). -/
def applyFriction (dt : ℝ) (s : PlayerState) : PlayerState :=
  let speed := Vec3.length ⟨s.velocity.x, 0, s.velocity.z⟩
  if speed < 0.01 then
    { s with velocity := ⟨0, s.velocity.y, 0⟩ }
  else
    let friction0 := if s.onGround = true then groundFriction else airFriction
    let friction := if speed > 5 then friction0 * 0.5 else friction0
    let damping := max 0 (1 - friction * dt)
    { s with velocity := ⟨s.velocity.x * damping, s.velocity.y,
                          s.velocity.z * damping⟩ }

/-- Input normalization at the top of Movement.update: normalize only
when the squared length exceeds 1. -/
def normalizeInput (mi : Vec3) : Vec3 :=
  if mi.lengthSq > 1 then mi.normalize else mi

/-- Movement.update. -/
def movementUpdate (t dt : ℝ) (moveInput0 : Vec3) (s : PlayerState) : PlayerState :=
  if moveInput0.lengthSq = 0 then
    let s1 := applyFriction dt s
    { s1 with lastMoveInput := moveInput0 }
  else
    let moveInput := normalizeInput moveInput0
    let s1 := calculateMoveDirection moveInput s
    let s2 := detectDirectionChange t s1
    let speed := if s2.isSprinting = true then runSpeed else walkSpeed
    let s3 := { s2 with targetVelocity := speed • s2.moveDirection }
    let s4 := applyAccelerationWithMomentum dt s3
    { s4 with lastMoveInput := moveInput, lastDirection := s4.moveDirection,
              lastSpeed := s4.velocity.length }

/-- Player.update: ground bookkeeping, then the jump buffer block, then
Movement.update.  bodyOnGround is physicsBody.onGround for this tick. -/
def playerUpdate (t dt : ℝ) (bodyOnGround : Bool) (moveInput : Vec3)
    (s : PlayerState) : PlayerState :=
  movementUpdate t dt moveInput (jumpPhase t (trackGround t bodyOnGround s))

/-- One tick of external input: the sampled time, the delta time, and the
ground flag computed by the physics layer. -/
structure TickInput where
  t : ℝ
  dt : ℝ
  bodyOnGround : Bool

/-- A run of the controller over a list of ticks with a constant latched
move input. -/
def runTicks (moveInput : Vec3) (s : PlayerState) : List TickInput → PlayerState
  | [] => s
  | i :: rest => runTicks moveInput (playerUpdate i.t i.dt i.bodyOnGround moveInput s) rest

/- Concrete states for the closed instances below. -/

/-- The controller state right after construction, standing at rest on
the ground: the Player constructor values (jumpCount 0, maxJumps
defaulting to 2, all timers 0) with onGround true. -/
def baseState : PlayerState where
  velocity := ⟨0, 0, 0⟩
  onGround := true
  isJumping := false
  isSprinting := false
  jumpCount := 0
  maxJumps := 2
  lastJumpTime := 0
  jumpRequested := false
  jumpBufferTime := 0
  lastGroundedTime := 0
  viewYaw := 0
  moveDirection := ⟨0, 0, 0⟩
  targetVelocity := ⟨0, 0, 0⟩
  lastMoveInput := ⟨0, 0, 0⟩
  lastDirection := ⟨0, 0, 0⟩
  lastSpeed := 0
  hasChangedDirection := false
  directionChangeTime := 0

/-- Airborne, out of coyote time, with a 50 ms old latched jump press:
the state for the C1 counterexample (time of the tick: 1000). -/
def c1State : PlayerState :=
  { baseState with onGround := false, jumpRequested := true, jumpBufferTime := 950 }

/-- Airborne with a stale latched press first processed after the
buffer window: the state for the C1 witness (time of the tick: 1000). -/
def c1wState : PlayerState :=
  { baseState with onGround := false, jumpRequested := true }

/-- Airborne but inside the coyote window, with a fresh press and a
nonzero move direction: the state for the C3 counterexample. -/
def c3State : PlayerState :=
  { baseState with
    onGround := false, jumpRequested := true, jumpBufferTime := 950,
    lastGroundedTime := 950, moveDirection := ⟨1, 0, 0⟩ }

/-- Grounded with a fresh press and a nonzero move direction: the state
for the C3 witness. -/
def c3wState : PlayerState :=
  { baseState with
    jumpRequested := true, jumpBufferTime := 950, moveDirection := ⟨1, 0, 0⟩ }

/-- Moving at horizontal speed 8 with the direction-change flag set: the
state for the C5 witness of the momentum blend. -/
def mom5State : PlayerState :=
  { baseState with
    velocity := ⟨8, 0, 0⟩, targetVelocity := ⟨0, 0, -6⟩,
    hasChangedDirection := true }

/-- Previous and current move directions at right angles: the state for
the C5 witness of the direction-change detector. -/
def dir5State : PlayerState :=
  { baseState with lastDirection := ⟨1, 0, 0⟩, moveDirection := ⟨0, 0, -1⟩ }

/-- A jump fired 50 ms ago: the cooldown blocks at tick time 1000. -/
def cool7State : PlayerState := { baseState with lastJumpTime := 950 }

/-- A pending in-buffer press that the cooldown blocks. -/
def buf7State : PlayerState :=
  { baseState with
    jumpRequested := true, jumpBufferTime := 950, lastJumpTime := 950 }

/-- A pending press whose buffer window has expired at tick time 1000. -/
def exp7State : PlayerState :=
  { baseState with jumpRequested := true, jumpBufferTime := 0 }

/-- Grounded at horizontal speed 20 on a ground-jump tick (one-shot
boost armed, jumpCount 1): the state for the C10 concrete instance. -/
def c10State : PlayerState :=
  { baseState with
    velocity := ⟨20, 0, 0⟩, isJumping := true, jumpCount := 1,
    lastDirection := ⟨1, 0, 0⟩ }

/- Basic geometry of Vec3 lengths. -/

theorem Vec3.lengthSq_nonneg (v : Vec3) : 0 ≤ v.lengthSq := by
  have hx := mul_self_nonneg v.x
  have hy := mul_self_nonneg v.y
  have hz := mul_self_nonneg v.z
  unfold Vec3.lengthSq
  linarith

theorem Vec3.length_nonneg (v : Vec3) : 0 ≤ v.length :=
  Real.sqrt_nonneg _

theorem Vec3.length_mk_x (a : ℝ) : Vec3.length ⟨a, 0, 0⟩ = |a| := by
  unfold Vec3.length Vec3.lengthSq
  simp [Real.sqrt_mul_self_eq_abs]

theorem Vec3.length_mk_z (c : ℝ) : Vec3.length ⟨0, 0, c⟩ = |c| := by
  unfold Vec3.length Vec3.lengthSq
  simp [Real.sqrt_mul_self_eq_abs]

theorem Vec3.length_zero : Vec3.length 0 = 0 := by
  have := Vec3.length_mk_x 0
  simpa using this

theorem Vec3.lengthSq_smul (c : ℝ) (v : Vec3) :
    (c • v).lengthSq = c ^ 2 * v.lengthSq := by
  show Vec3.lengthSq ⟨c * v.x, c * v.y, c * v.z⟩ = c ^ 2 * v.lengthSq
  unfold Vec3.lengthSq
  ring

theorem Vec3.length_smul (c : ℝ) (v : Vec3) :
    (c • v).length = |c| * v.length := by
  unfold Vec3.length
  rw [Vec3.lengthSq_smul, Real.sqrt_mul (sq_nonneg c), Real.sqrt_sq_eq_abs]

theorem Vec3.sq_length (v : Vec3) : v.length ^ 2 = v.lengthSq :=
  Real.sq_sqrt v.lengthSq_nonneg

theorem Vec3.dot_le (a b : Vec3) : a.dot b ≤ a.length * b.length := by
  have hcs : (a.dot b) ^ 2 ≤ a.lengthSq * b.lengthSq := by
    unfold Vec3.dot Vec3.lengthSq
    nlinarith [sq_nonneg (a.x * b.y - a.y * b.x), sq_nonneg (a.x * b.z - a.z * b.x),
      sq_nonneg (a.y * b.z - a.z * b.y)]
  calc a.dot b ≤ |a.dot b| := le_abs_self _
    _ = Real.sqrt ((a.dot b) ^ 2) := (Real.sqrt_sq_eq_abs _).symm
    _ ≤ Real.sqrt (a.lengthSq * b.lengthSq) := Real.sqrt_le_sqrt hcs
    _ = a.length * b.length := by
        unfold Vec3.length
        exact Real.sqrt_mul a.lengthSq_nonneg _

theorem Vec3.lengthSq_add (a b : Vec3) :
    (a + b).lengthSq = a.lengthSq + 2 * a.dot b + b.lengthSq := by
  show Vec3.lengthSq ⟨a.x + b.x, a.y + b.y, a.z + b.z⟩ = _
  unfold Vec3.lengthSq Vec3.dot
  ring

theorem Vec3.length_add_le (a b : Vec3) :
    (a + b).length ≤ a.length + b.length := by
  have hsum : (a + b).lengthSq ≤ (a.length + b.length) ^ 2 := by
    rw [Vec3.lengthSq_add]
    have hdot := a.dot_le b
    have ha := a.sq_length
    have hb := b.sq_length
    nlinarith
  calc (a + b).length = Real.sqrt (a + b).lengthSq := rfl
    _ ≤ Real.sqrt ((a.length + b.length) ^ 2) := Real.sqrt_le_sqrt hsum
    _ = |a.length + b.length| := Real.sqrt_sq_eq_abs _
    _ = a.length + b.length :=
        abs_of_nonneg (add_nonneg a.length_nonneg b.length_nonneg)

theorem Vec3.length_drop_y (a b c : ℝ) :
    Vec3.length ⟨a, 0, c⟩ ≤ Vec3.length ⟨a, b, c⟩ := by
  apply Real.sqrt_le_sqrt
  show a * a + 0 * 0 + c * c ≤ a * a + b * b + c * c
  nlinarith [mul_self_nonneg b]

theorem Vec3.length_pos_of_lengthSq_pos (v : Vec3) (h : 0 < v.lengthSq) :
    0 < v.length :=
  Real.sqrt_pos.mpr h

theorem Vec3.length_normalize (v : Vec3) (h : 0 < v.lengthSq) :
    v.normalize.length = 1 := by
  have hL : 0 < v.length := v.length_pos_of_lengthSq_pos h
  unfold Vec3.normalize
  rw [Vec3.length_smul, abs_of_pos (one_div_pos.mpr hL)]
  field_simp

/- The maximum-speed cap. -/

theorem capVelocity_eq_of_not_gt (v : Vec3) (h : ¬v.length > maxSpeed) :
    capVelocity v = v := by
  unfold capVelocity
  exact if_neg h

theorem capVelocity_of_gt (v : Vec3) (h : v.length > maxSpeed) :
    capVelocity v = (maxSpeed / v.length) • v ∧
      (capVelocity v).length = maxSpeed := by
  have hL : 0 < v.length := lt_trans (by norm_num [maxSpeed]) h
  have he : capVelocity v = (maxSpeed / v.length) • v := by
    unfold capVelocity
    exact if_pos h
  refine ⟨he, ?_⟩
  rw [he, Vec3.length_smul,
    abs_of_pos (div_pos (by norm_num [maxSpeed]) hL)]
  field_simp

theorem capVelocity_length_le (v : Vec3) : (capVelocity v).length ≤ maxSpeed := by
  by_cases h : v.length > maxSpeed
  · exact le_of_eq (capVelocity_of_gt v h).2
  · rw [capVelocity_eq_of_not_gt v h]
    exact not_lt.mp h

/- Branch characterizations of the jump logic. -/

theorem applyJumpBoost_pos (s : PlayerState)
    (h : s.moveDirection.lengthSq > 0 ∧ s.onGround = true) :
    applyJumpBoost s = { s with isJumping := true } := by
  simp only [applyJumpBoost]
  rw [if_pos h]

theorem applyJumpBoost_neg (s : PlayerState)
    (h : ¬(s.moveDirection.lengthSq > 0 ∧ s.onGround = true)) :
    applyJumpBoost s = s := by
  simp only [applyJumpBoost]
  rw [if_neg h]

theorem applyJumpBoost_fields (s : PlayerState) :
    (applyJumpBoost s).velocity = s.velocity ∧
    (applyJumpBoost s).jumpCount = s.jumpCount ∧
    (applyJumpBoost s).maxJumps = s.maxJumps ∧
    (applyJumpBoost s).lastJumpTime = s.lastJumpTime ∧
    (applyJumpBoost s).jumpRequested = s.jumpRequested ∧
    (applyJumpBoost s).onGround = s.onGround := by
  simp only [applyJumpBoost]
  split_ifs <;> exact ⟨rfl, rfl, rfl, rfl, rfl, rfl⟩

theorem processJump_cooldown (t : ℝ) (s : PlayerState)
    (h : t - s.lastJumpTime < jumpCooldown) :
    processJump t s = (false, s) := by
  simp only [processJump]
  rw [if_pos h]

theorem processJump_first (t : ℝ) (s : PlayerState)
    (hcool : ¬(t - s.lastJumpTime < jumpCooldown))
    (hcan : s.onGround = true ∨ t - s.lastGroundedTime < coyoteTime)
    (hcount : s.jumpCount = 0) :
    processJump t s =
      (true, applyJumpBoost
        { s with velocity := ⟨s.velocity.x, jumpForce, s.velocity.z⟩,
                 jumpCount := 1, lastJumpTime := t }) := by
  simp only [processJump]
  rw [if_neg hcool, if_pos ⟨hcan, hcount⟩]

theorem processJump_air (t : ℝ) (s : PlayerState)
    (hcool : ¬(t - s.lastJumpTime < jumpCooldown))
    (hcan : ¬(s.onGround = true ∨ t - s.lastGroundedTime < coyoteTime))
    (hcount : s.jumpCount < s.maxJumps) :
    processJump t s =
      (true, { s with velocity := ⟨s.velocity.x, jumpForce * 0.9, s.velocity.z⟩,
                      jumpCount := s.jumpCount + 1, lastJumpTime := t }) := by
  simp only [processJump]
  rw [if_neg hcool, if_neg (by exact fun h => hcan h.1), if_pos ⟨hcan, hcount⟩]

theorem processJump_failed_eq (t : ℝ) (s : PlayerState)
    (h : (processJump t s).1 = false) :
    processJump t s = (false, s) := by
  simp only [processJump] at h ⊢
  split_ifs at h ⊢ <;> simp_all

theorem processJump_maxJumps (t : ℝ) (s : PlayerState) :
    (processJump t s).2.maxJumps = s.maxJumps := by
  simp only [processJump]
  split_ifs with h1 h2 h3
  · rfl
  · exact (applyJumpBoost_fields _).2.2.1
  · rfl
  · rfl

theorem processJump_jumpCount_bounds (t : ℝ) (s : PlayerState)
    (hmax : 1 ≤ s.maxJumps) (h0 : 0 ≤ s.jumpCount) (hle : s.jumpCount ≤ s.maxJumps) :
    0 ≤ (processJump t s).2.jumpCount ∧ (processJump t s).2.jumpCount ≤ s.maxJumps := by
  simp only [processJump]
  split_ifs with h1 h2 h3
  · exact ⟨h0, hle⟩
  · have hj := (applyJumpBoost_fields
      { s with velocity := ⟨s.velocity.x, jumpForce, s.velocity.z⟩,
               jumpCount := 1, lastJumpTime := t }).2.1
    constructor
    · rw [hj]; norm_num
    · rw [hj]; exact hmax
  · refine ⟨?_, ?_⟩
    · show (0:ℤ) ≤ s.jumpCount + 1
      omega
    · show s.jumpCount + 1 ≤ s.maxJumps
      omega
  · exact ⟨h0, hle⟩

theorem jumpPhase_not_requested (t : ℝ) (s : PlayerState)
    (h : s.jumpRequested = false) : jumpPhase t s = s := by
  simp only [jumpPhase]
  rw [if_neg (by simp [h])]

theorem jumpPhase_expired (t : ℝ) (s : PlayerState)
    (hreq : s.jumpRequested = true)
    (h : ¬(t - s.jumpBufferTime < jumpBufferWindow)) :
    jumpPhase t s = { s with jumpRequested := false } := by
  simp only [jumpPhase]
  rw [if_pos hreq, if_neg h]

theorem jumpPhase_failed (t : ℝ) (s : PlayerState)
    (hreq : s.jumpRequested = true)
    (hbuf : t - s.jumpBufferTime < jumpBufferWindow)
    (hfail : (processJump t s).1 = false) :
    jumpPhase t s = s := by
  have he := processJump_failed_eq t s hfail
  simp only [jumpPhase]
  rw [if_pos hreq, if_pos hbuf, he]
  simp

theorem jumpPhase_success (t : ℝ) (s : PlayerState)
    (hreq : s.jumpRequested = true)
    (hbuf : t - s.jumpBufferTime < jumpBufferWindow)
    (hsucc : (processJump t s).1 = true) :
    jumpPhase t s = { (processJump t s).2 with jumpRequested := false } := by
  simp only [jumpPhase]
  rw [if_pos hreq, if_pos hbuf, if_pos hsucc]

/- Ground-state bookkeeping. -/

theorem trackGround_onGround (t : ℝ) (bog : Bool) (s : PlayerState) :
    (trackGround t bog s).onGround = bog := by
  simp only [trackGround]
  split_ifs <;> rfl

theorem trackGround_fields (t : ℝ) (bog : Bool) (s : PlayerState) :
    (trackGround t bog s).velocity = s.velocity ∧
    (trackGround t bog s).isJumping = s.isJumping ∧
    (trackGround t bog s).jumpRequested = s.jumpRequested ∧
    (trackGround t bog s).jumpBufferTime = s.jumpBufferTime ∧
    (trackGround t bog s).maxJumps = s.maxJumps ∧
    (trackGround t bog s).lastJumpTime = s.lastJumpTime := by
  simp only [trackGround]
  split_ifs <;> exact ⟨rfl, rfl, rfl, rfl, rfl, rfl⟩

theorem trackGround_jumpCount_landing (t : ℝ) (s : PlayerState)
    (hair : s.onGround = false) :
    (trackGround t true s).jumpCount = 0 := by
  simp only [trackGround]
  split_ifs with h1 h2 <;> simp_all

theorem trackGround_jumpCount_no_edge (t : ℝ) (bog : Bool) (s : PlayerState)
    (h : ¬(s.onGround = false ∧ bog = true)) :
    (trackGround t bog s).jumpCount = s.jumpCount := by
  simp only [trackGround]
  split_ifs with h1 h2 <;> simp_all

theorem trackGround_jumpCount_cases (t : ℝ) (bog : Bool) (s : PlayerState) :
    (trackGround t bog s).jumpCount = 0 ∨
    (trackGround t bog s).jumpCount = s.jumpCount := by
  simp only [trackGround]
  split_ifs <;> simp

/- Movement-side field preservation. -/

theorem calculateMoveDirection_fields (mi : Vec3) (s : PlayerState) :
    (calculateMoveDirection mi s).velocity = s.velocity ∧
    (calculateMoveDirection mi s).jumpCount = s.jumpCount ∧
    (calculateMoveDirection mi s).maxJumps = s.maxJumps ∧
    (calculateMoveDirection mi s).jumpRequested = s.jumpRequested ∧
    (calculateMoveDirection mi s).isJumping = s.isJumping ∧
    (calculateMoveDirection mi s).onGround = s.onGround := by
  exact ⟨rfl, rfl, rfl, rfl, rfl, rfl⟩

theorem detectDirectionChange_fields (t : ℝ) (s : PlayerState) :
    (detectDirectionChange t s).velocity = s.velocity ∧
    (detectDirectionChange t s).jumpCount = s.jumpCount ∧
    (detectDirectionChange t s).maxJumps = s.maxJumps ∧
    (detectDirectionChange t s).jumpRequested = s.jumpRequested ∧
    (detectDirectionChange t s).isJumping = s.isJumping ∧
    (detectDirectionChange t s).onGround = s.onGround ∧
    (detectDirectionChange t s).moveDirection = s.moveDirection := by
  simp only [detectDirectionChange]
  split_ifs <;> exact ⟨rfl, rfl, rfl, rfl, rfl, rfl, rfl⟩

theorem applyFriction_velocity_y (dt : ℝ) (s : PlayerState) :
    (applyFriction dt s).velocity.y = s.velocity.y := by
  simp only [applyFriction]
  split_ifs <;> rfl

theorem applyFriction_fields (dt : ℝ) (s : PlayerState) :
    (applyFriction dt s).jumpCount = s.jumpCount ∧
    (applyFriction dt s).maxJumps = s.maxJumps ∧
    (applyFriction dt s).jumpRequested = s.jumpRequested ∧
    (applyFriction dt s).isJumping = s.isJumping := by
  simp only [applyFriction]
  split_ifs <;> exact ⟨rfl, rfl, rfl, rfl⟩

theorem applyAcc_velocity_y (dt : ℝ) (s : PlayerState) :
    (applyAccelerationWithMomentum dt s).velocity.y = s.velocity.y := by
  simp only [applyAccelerationWithMomentum]
  split_ifs <;> rfl

theorem applyAcc_fields (dt : ℝ) (s : PlayerState) :
    (applyAccelerationWithMomentum dt s).jumpCount = s.jumpCount ∧
    (applyAccelerationWithMomentum dt s).maxJumps = s.maxJumps ∧
    (applyAccelerationWithMomentum dt s).jumpRequested = s.jumpRequested := by
  simp only [applyAccelerationWithMomentum]
  split_ifs <;> exact ⟨rfl, rfl, rfl⟩

theorem applyAcc_isJumping_false (dt : ℝ) (s : PlayerState)
    (h : s.isJumping = false) :
    (applyAccelerationWithMomentum dt s).isJumping = false := by
  simp only [applyAccelerationWithMomentum]
  split_ifs
  · rfl
  · exact h

theorem applyAcc_velocity_no_boost (dt : ℝ) (s : PlayerState)
    (h : ¬(s.isJumping = true ∧ s.jumpCount = 1)) :
    (applyAccelerationWithMomentum dt s).velocity =
      ⟨(capVelocity (preCapVelocity dt s)).x, s.velocity.y,
       (capVelocity (preCapVelocity dt s)).z⟩ := by
  simp only [applyAccelerationWithMomentum]
  split_ifs
  rfl

theorem applyAcc_velocity_boost (dt : ℝ) (s : PlayerState)
    (h : s.isJumping = true ∧ s.jumpCount = 1) :
    (applyAccelerationWithMomentum dt s).velocity =
      ⟨(capVelocity (preCapVelocity dt s)).x
          + (jumpBoostForward * walkSpeed) * s.moveDirection.x,
       s.velocity.y,
       (capVelocity (preCapVelocity dt s)).z
          + (jumpBoostForward * walkSpeed) * s.moveDirection.z⟩ := by
  simp only [applyAccelerationWithMomentum]
  split_ifs
  rfl

/- Movement.update as a whole. -/

theorem normalize_clause_length_le (v : Vec3) :
    (if v.lengthSq > 0 then v.normalize else v).length ≤ 1 := by
  split_ifs with h
  · exact le_of_eq (v.length_normalize h)
  · have h0 : v.lengthSq = 0 := le_antisymm (not_lt.mp h) v.lengthSq_nonneg
    have hlen : v.length = 0 := by rw [Vec3.length, h0, Real.sqrt_zero]
    rw [hlen]
    norm_num

theorem calculateMoveDirection_length_le (mi : Vec3) (s : PlayerState) :
    (calculateMoveDirection mi s).moveDirection.length ≤ 1 :=
  normalize_clause_length_le _

theorem applyAcc_horiz_le (dt : ℝ) (s : PlayerState)
    (hmd : s.moveDirection.length ≤ 1) :
    horizSpeed (applyAccelerationWithMomentum dt s) ≤
        maxSpeed + jumpBoostForward * walkSpeed ∧
      (s.isJumping = false →
        horizSpeed (applyAccelerationWithMomentum dt s) ≤ maxSpeed) := by
  by_cases hb : s.isJumping = true ∧ s.jumpCount = 1
  · have hv := applyAcc_velocity_boost dt s hb
    constructor
    · rw [horizSpeed, hv]
      have hsplit :
          (⟨(capVelocity (preCapVelocity dt s)).x
              + (jumpBoostForward * walkSpeed) * s.moveDirection.x, 0,
            (capVelocity (preCapVelocity dt s)).z
              + (jumpBoostForward * walkSpeed) * s.moveDirection.z⟩ : Vec3) =
          (⟨(capVelocity (preCapVelocity dt s)).x, 0,
            (capVelocity (preCapVelocity dt s)).z⟩ : Vec3) +
          (jumpBoostForward * walkSpeed) •
            (⟨s.moveDirection.x, 0, s.moveDirection.z⟩ : Vec3) := by
        ext <;> simp
      rw [hsplit]
      have h1 := Vec3.length_add_le
        (⟨(capVelocity (preCapVelocity dt s)).x, 0,
          (capVelocity (preCapVelocity dt s)).z⟩ : Vec3)
        ((jumpBoostForward * walkSpeed) •
          (⟨s.moveDirection.x, 0, s.moveDirection.z⟩ : Vec3))
      have h2 : Vec3.length (⟨(capVelocity (preCapVelocity dt s)).x, 0,
          (capVelocity (preCapVelocity dt s)).z⟩ : Vec3) ≤ maxSpeed :=
        le_trans
          (Vec3.length_drop_y (capVelocity (preCapVelocity dt s)).x
            (capVelocity (preCapVelocity dt s)).y
            (capVelocity (preCapVelocity dt s)).z)
          (capVelocity_length_le _)
      have h3 : Vec3.length ((jumpBoostForward * walkSpeed) •
          (⟨s.moveDirection.x, 0, s.moveDirection.z⟩ : Vec3)) ≤
          jumpBoostForward * walkSpeed := by
        rw [Vec3.length_smul]
        have hd : Vec3.length (⟨s.moveDirection.x, 0, s.moveDirection.z⟩ : Vec3) ≤ 1 :=
          le_trans (Vec3.length_drop_y s.moveDirection.x s.moveDirection.y
            s.moveDirection.z) hmd
        have habs : |jumpBoostForward * walkSpeed| = jumpBoostForward * walkSpeed := by
          rw [abs_of_nonneg]
          norm_num [jumpBoostForward, walkSpeed]
        rw [habs]
        calc jumpBoostForward * walkSpeed *
              Vec3.length (⟨s.moveDirection.x, 0, s.moveDirection.z⟩ : Vec3) ≤
            jumpBoostForward * walkSpeed * 1 := by
              apply mul_le_mul_of_nonneg_left hd
              norm_num [jumpBoostForward, walkSpeed]
          _ = jumpBoostForward * walkSpeed := mul_one _
      linarith
    · intro hf
      rw [hf] at hb
      exact absurd hb.1 (by simp)
  · have hv := applyAcc_velocity_no_boost dt s hb
    have hle : horizSpeed (applyAccelerationWithMomentum dt s) ≤ maxSpeed := by
      rw [horizSpeed, hv]
      exact le_trans
        (Vec3.length_drop_y (capVelocity (preCapVelocity dt s)).x
          (capVelocity (preCapVelocity dt s)).y
          (capVelocity (preCapVelocity dt s)).z)
        (capVelocity_length_le _)
    have hboost : (0:ℝ) ≤ jumpBoostForward * walkSpeed := by
      norm_num [jumpBoostForward, walkSpeed]
    exact ⟨by linarith, fun _ => hle⟩

theorem movementUpdate_velocity_y (t dt : ℝ) (mi : Vec3) (s : PlayerState) :
    (movementUpdate t dt mi s).velocity.y = s.velocity.y := by
  simp only [movementUpdate]
  split_ifs with h
  · exact applyFriction_velocity_y dt s
  all_goals
    (show (applyAccelerationWithMomentum dt _).velocity.y = s.velocity.y
     exact (applyAcc_velocity_y dt _).trans
       (congrArg Vec3.y (detectDirectionChange_fields t _).1))

theorem movementUpdate_fields (t dt : ℝ) (mi : Vec3) (s : PlayerState) :
    (movementUpdate t dt mi s).jumpCount = s.jumpCount ∧
    (movementUpdate t dt mi s).maxJumps = s.maxJumps ∧
    (movementUpdate t dt mi s).jumpRequested = s.jumpRequested := by
  simp only [movementUpdate]
  split_ifs with h
  · exact ⟨(applyFriction_fields dt s).1, (applyFriction_fields dt s).2.1,
      (applyFriction_fields dt s).2.2.1⟩
  all_goals refine ⟨?_, ?_, ?_⟩
  all_goals first
    | (show (applyAccelerationWithMomentum dt _).jumpCount = s.jumpCount
       exact ((applyAcc_fields dt _).1).trans (detectDirectionChange_fields t _).2.1)
    | (show (applyAccelerationWithMomentum dt _).maxJumps = s.maxJumps
       exact ((applyAcc_fields dt _).2.1).trans (detectDirectionChange_fields t _).2.2.1)
    | (show (applyAccelerationWithMomentum dt _).jumpRequested = s.jumpRequested
       exact ((applyAcc_fields dt _).2.2).trans (detectDirectionChange_fields t _).2.2.2.1)

theorem movementUpdate_isJumping_false (t dt : ℝ) (mi : Vec3) (s : PlayerState)
    (h : s.isJumping = false) :
    (movementUpdate t dt mi s).isJumping = false := by
  simp only [movementUpdate]
  split_ifs with hmi
  · exact ((applyFriction_fields dt s).2.2.2).trans h
  all_goals
    (show (applyAccelerationWithMomentum dt _).isJumping = false
     exact applyAcc_isJumping_false dt _
       (((detectDirectionChange_fields t _).2.2.2.2.1).trans h))

theorem movementUpdate_horiz_le (t dt : ℝ) (mi : Vec3) (s : PlayerState)
    (hmi : ¬mi.lengthSq = 0) :
    horizSpeed (movementUpdate t dt mi s) ≤
        maxSpeed + jumpBoostForward * walkSpeed ∧
      (s.isJumping = false → horizSpeed (movementUpdate t dt mi s) ≤ maxSpeed) := by
  simp only [movementUpdate]
  rw [if_neg hmi]
  constructor
  · show horizSpeed (applyAccelerationWithMomentum dt _) ≤
        maxSpeed + jumpBoostForward * walkSpeed
    refine (applyAcc_horiz_le dt _ ?_).1
    exact (congrArg Vec3.length
      (detectDirectionChange_fields t _).2.2.2.2.2.2).trans_le
      (calculateMoveDirection_length_le _ _)
  · intro hf
    show horizSpeed (applyAccelerationWithMomentum dt _) ≤ maxSpeed
    refine (applyAcc_horiz_le dt _ ?_).2 ?_
    · exact (congrArg Vec3.length
        (detectDirectionChange_fields t _).2.2.2.2.2.2).trans_le
        (calculateMoveDirection_length_le _ _)
    · exact ((detectDirectionChange_fields t _).2.2.2.2.1).trans hf

/- Jump-count bounds through a whole tick. -/

theorem jumpPhase_jumpCount_bounds (t : ℝ) (s : PlayerState)
    (hmax : 1 ≤ s.maxJumps) (h0 : 0 ≤ s.jumpCount) (hle : s.jumpCount ≤ s.maxJumps) :
    0 ≤ (jumpPhase t s).jumpCount ∧ (jumpPhase t s).jumpCount ≤ s.maxJumps := by
  simp only [jumpPhase]
  split_ifs with h1 h2 h3
  · show 0 ≤ (processJump t s).2.jumpCount ∧ (processJump t s).2.jumpCount ≤ s.maxJumps
    exact processJump_jumpCount_bounds t s hmax h0 hle
  · have hfail : (processJump t s).1 = false := by
      simpa using h3
    show 0 ≤ (processJump t s).2.jumpCount ∧ (processJump t s).2.jumpCount ≤ s.maxJumps
    rw [processJump_failed_eq t s hfail]
    exact ⟨h0, hle⟩
  · exact ⟨h0, hle⟩
  · exact ⟨h0, hle⟩

theorem playerUpdate_jumpCount_bounds (t dt : ℝ) (bog : Bool) (mi : Vec3)
    (s : PlayerState) (hmax : 1 ≤ s.maxJumps)
    (h0 : 0 ≤ s.jumpCount) (hle : s.jumpCount ≤ s.maxJumps) :
    0 ≤ (playerUpdate t dt bog mi s).jumpCount ∧
      (playerUpdate t dt bog mi s).jumpCount ≤ s.maxJumps := by
  have htgmax : (trackGround t bog s).maxJumps = s.maxJumps :=
    (trackGround_fields t bog s).2.2.2.2.1
  have htg0 : 0 ≤ (trackGround t bog s).jumpCount := by
    rcases trackGround_jumpCount_cases t bog s with h | h
    · rw [h]
    · rw [h]; exact h0
  have htgle : (trackGround t bog s).jumpCount ≤ (trackGround t bog s).maxJumps := by
    rw [htgmax]
    rcases trackGround_jumpCount_cases t bog s with h | h
    · rw [h]; omega
    · rw [h]; exact hle
  have hjp := jumpPhase_jumpCount_bounds t (trackGround t bog s)
    (by rw [htgmax]; exact hmax) htg0 htgle
  have hmov := (movementUpdate_fields t dt mi (jumpPhase t (trackGround t bog s))).1
  constructor
  · show 0 ≤ (movementUpdate t dt mi (jumpPhase t (trackGround t bog s))).jumpCount
    rw [hmov]
    exact hjp.1
  · show (movementUpdate t dt mi (jumpPhase t (trackGround t bog s))).jumpCount ≤ s.maxJumps
    rw [hmov]
    exact le_trans hjp.2 (le_of_eq htgmax)

/- The capped-speed invariant over a run with constant nonzero input and
no jump requests. -/

theorem playerUpdate_inv (t dt : ℝ) (bog : Bool) (mi : Vec3) (s : PlayerState)
    (hmi : ¬mi.lengthSq = 0) (hreq : s.jumpRequested = false)
    (hj : s.isJumping = false) :
    (playerUpdate t dt bog mi s).jumpRequested = false ∧
    (playerUpdate t dt bog mi s).isJumping = false ∧
    horizSpeed (playerUpdate t dt bog mi s) ≤ maxSpeed := by
  have htg := trackGround_fields t bog s
  have hjp : jumpPhase t (trackGround t bog s) = trackGround t bog s :=
    jumpPhase_not_requested t _ (htg.2.2.1.trans hreq)
  refine ⟨?_, ?_, ?_⟩
  · show (movementUpdate t dt mi (jumpPhase t (trackGround t bog s))).jumpRequested = false
    rw [(movementUpdate_fields t dt mi _).2.2, hjp]
    exact htg.2.2.1.trans hreq
  · show (movementUpdate t dt mi (jumpPhase t (trackGround t bog s))).isJumping = false
    rw [hjp]
    exact movementUpdate_isJumping_false t dt mi _ (htg.2.1.trans hj)
  · show horizSpeed (movementUpdate t dt mi (jumpPhase t (trackGround t bog s))) ≤ maxSpeed
    rw [hjp]
    exact (movementUpdate_horiz_le t dt mi _ hmi).2 (htg.2.1.trans hj)

theorem runTicks_horiz_le (mi : Vec3) (hmi : ¬mi.lengthSq = 0) :
    ∀ (inputs : List TickInput) (s : PlayerState),
      s.jumpRequested = false → s.isJumping = false → horizSpeed s ≤ maxSpeed →
      horizSpeed (runTicks mi s inputs) ≤ maxSpeed
  | [], _, _, _, hh => hh
  | i :: rest, s, hreq, hj, _ => by
      have h := playerUpdate_inv i.t i.dt i.bodyOnGround mi s hmi hreq hj
      exact runTicks_horiz_le mi hmi rest _ h.1 h.2.1 h.2.2

/- The friction model. -/

theorem applyFriction_snap (dt : ℝ) (s : PlayerState) (h : horizSpeed s < 0.01) :
    applyFriction dt s = { s with velocity := ⟨0, s.velocity.y, 0⟩ } := by
  have h2 : Vec3.length ⟨s.velocity.x, 0, s.velocity.z⟩ < 0.01 := h
  simp only [applyFriction]
  rw [if_pos h2]

theorem applyFriction_damp (dt : ℝ) (s : PlayerState) (h : ¬horizSpeed s < 0.01) :
    applyFriction dt s = { s with velocity :=
      ⟨s.velocity.x * max 0 (1 -
          (if horizSpeed s > 5 then
            (if s.onGround = true then groundFriction else airFriction) * 0.5
          else if s.onGround = true then groundFriction else airFriction) * dt),
        s.velocity.y,
        s.velocity.z * max 0 (1 -
          (if horizSpeed s > 5 then
            (if s.onGround = true then groundFriction else airFriction) * 0.5
          else if s.onGround = true then groundFriction else airFriction) * dt)⟩ } := by
  have h2 : ¬Vec3.length ⟨s.velocity.x, 0, s.velocity.z⟩ < 0.01 := h
  simp only [applyFriction]
  rw [if_neg h2]
  rfl

theorem frictionCoeff_nonneg (s : PlayerState) :
    0 ≤ (if horizSpeed s > 5 then
          (if s.onGround = true then groundFriction else airFriction) * 0.5
        else if s.onGround = true then groundFriction else airFriction) := by
  split_ifs <;> norm_num [groundFriction, airFriction]

theorem applyFriction_horiz_le (dt : ℝ) (s : PlayerState) (hdt : 0 ≤ dt) :
    horizSpeed (applyFriction dt s) ≤ horizSpeed s := by
  by_cases h : horizSpeed s < 0.01
  · rw [applyFriction_snap dt s h]
    show Vec3.length ⟨0, 0, 0⟩ ≤ horizSpeed s
    have h0 : Vec3.length ⟨0, 0, 0⟩ = 0 := Vec3.length_zero
    rw [h0]
    exact Real.sqrt_nonneg _
  · rw [applyFriction_damp dt s h]
    have hF := frictionCoeff_nonneg s
    set F := (if horizSpeed s > 5 then
        (if s.onGround = true then groundFriction else airFriction) * 0.5
      else if s.onGround = true then groundFriction else airFriction) with hFdef
    have hd0 : (0:ℝ) ≤ max 0 (1 - F * dt) := le_max_left 0 _
    have hd1 : max 0 (1 - F * dt) ≤ 1 := by
      apply max_le (by norm_num)
      have : 0 ≤ F * dt := mul_nonneg hF hdt
      linarith
    show Vec3.length ⟨s.velocity.x * max 0 (1 - F * dt), 0,
        s.velocity.z * max 0 (1 - F * dt)⟩ ≤ horizSpeed s
    have hvec : (⟨s.velocity.x * max 0 (1 - F * dt), 0,
        s.velocity.z * max 0 (1 - F * dt)⟩ : Vec3) =
        max 0 (1 - F * dt) • (⟨s.velocity.x, 0, s.velocity.z⟩ : Vec3) := by
      ext <;> simp [mul_comm]
    rw [hvec, Vec3.length_smul, abs_of_nonneg hd0]
    exact mul_le_of_le_one_left (Vec3.length_nonneg _) hd1

/-- One tick of Movement.update from rest on the ground, view yaw 0,
full forward input, dt = 1/120: the clamp min(accel*dt, 1) saturates at 1
and the velocity snaps to the full walk-speed target (0, 0, -6). -/
theorem movementUpdate_from_rest (t : ℝ) (s : PlayerState)
    (hv : s.velocity = ⟨0, 0, 0⟩) (hg : s.onGround = true)
    (hj : s.isJumping = false) (hs : s.isSprinting = false)
    (hyaw : s.viewYaw = 0) (hld : s.lastDirection = ⟨0, 0, 0⟩) :
    (movementUpdate t (1/120) ⟨0, 0, -1⟩ s).velocity = ⟨0, 0, -6⟩ := by
  have h36 : Real.sqrt 36 = 6 := by
    rw [show (36:ℝ) = 6 ^ 2 by norm_num, Real.sqrt_sq (by norm_num : (0:ℝ) ≤ 6)]
  norm_num [movementUpdate, normalizeInput, calculateMoveDirection,
    detectDirectionChange, applyAccelerationWithMomentum, preCapVelocity,
    capVelocity, Vec3.lengthSq, Vec3.length, Vec3.normalize, Vec3.dot,
    hv, hg, hj, hs, hyaw, hld, walkSpeed, runSpeed, maxSpeed,
    groundAcceleration, airAcceleration, dirChangeBoostMultiplier, airControl,
    momentumRetention, Real.sin_zero, Real.cos_zero, Real.sqrt_zero,
    Real.sqrt_one, h36, min_def]

/- The claims. -/

/-- Claim C2, amended: with walkSpeed 6, groundAcceleration 150 and
dirChangeBoostMultiplier 4, one tick at dt = 1/120 from rest on the
ground with forward input yields horizontal speed exactly 6 (walkSpeed):
the step factor min(accel*dt, 1) = min(5, 1) saturates at 1, so the
velocity snaps to the full target, not to approximately 5. -/
theorem C2_one_tick_from_rest (t : ℝ) (s : PlayerState)
    (hv : s.velocity = ⟨0, 0, 0⟩) (hg : s.onGround = true)
    (hj : s.isJumping = false) (hs : s.isSprinting = false)
    (hyaw : s.viewYaw = 0) (hld : s.lastDirection = ⟨0, 0, 0⟩) :
    horizSpeed (movementUpdate t (1/120) ⟨0, 0, -1⟩ s) = 6 := by
  have hvel := movementUpdate_from_rest t s hv hg hj hs hyaw hld
  simp only [horizSpeed, hvel]
  rw [Vec3.length_mk_z, abs_neg]
  exact abs_of_nonneg (by norm_num)

/-- Claim C2, counterexample to the claim as stated: at the scenario of
the spec the horizontal speed after one tick is exactly 6, not
approximately 5 — min(150*4*(1/120), 1) = 1, not 5/6. -/
theorem C2_counterexample :
    horizSpeed (movementUpdate 1000 (1/120) ⟨0, 0, -1⟩ baseState) = 6 ∧
      ¬|horizSpeed (movementUpdate 1000 (1/120) ⟨0, 0, -1⟩ baseState) - 5| ≤ 1/2 := by
  have hvel := movementUpdate_from_rest 1000 baseState rfl rfl rfl rfl rfl rfl
  have h6 : horizSpeed (movementUpdate 1000 (1/120) ⟨0, 0, -1⟩ baseState) = 6 := by
    simp only [horizSpeed, hvel]
    rw [Vec3.length_mk_z, abs_neg]
    exact abs_of_nonneg (by norm_num)
  refine ⟨h6, ?_⟩
  rw [h6]
  norm_num

/-- Claim C2, witness: the amended claim at the concrete start state. -/
theorem C2_witness :
    horizSpeed (movementUpdate 1000 (1/120) ⟨0, 0, -1⟩ baseState) = 6 :=
  C2_one_tick_from_rest 1000 baseState rfl rfl rfl rfl rfl rfl

/-- Claim C5: whenever the direction-change flag is set and the current
horizontal speed exceeds 2, the pre-cap velocity is the componentwise
blend current * momentumRetention + target * (1 - momentumRetention);
and the detector raises the flag whenever the previous direction is
nonzero and its dot product with the new direction is below the
threshold. -/
theorem C5_momentum_blend :
    (∀ (dt : ℝ) (s : PlayerState),
      s.hasChangedDirection = true → 2 < horizSpeed s →
      preCapVelocity dt s =
        momentumRetention • (⟨s.velocity.x, 0, s.velocity.z⟩ : Vec3) +
          (1 - momentumRetention) • s.targetVelocity) ∧
    (∀ (t : ℝ) (s : PlayerState), ¬s.lastDirection.lengthSq = 0 →
      s.lastDirection.dot s.moveDirection < directionChangeThreshold →
      (detectDirectionChange t s).hasChangedDirection = true) := by
  constructor
  · intro dt s h1 h2
    have hc : s.hasChangedDirection = true ∧
        Vec3.length ⟨s.velocity.x, 0, s.velocity.z⟩ > 2 := ⟨h1, h2⟩
    simp only [preCapVelocity]
    rw [if_pos hc]
  · intro t s h1 h2
    simp only [detectDirectionChange]
    rw [if_neg h1, if_pos h2]

/-- Claim C5, witness: at speed 8 along X with the flag set, the blend
fires; and a right-angle input flip raises the flag. -/
theorem C5_witness :
    preCapVelocity (1/120) mom5State =
      momentumRetention • (⟨mom5State.velocity.x, 0, mom5State.velocity.z⟩ : Vec3) +
        (1 - momentumRetention) • mom5State.targetVelocity ∧
    (detectDirectionChange 1000 dir5State).hasChangedDirection = true := by
  constructor
  · apply C5_momentum_blend.1
    · rfl
    · show (2:ℝ) < horizSpeed mom5State
      have h8 : horizSpeed mom5State = 8 := by
        show Vec3.length ⟨(8:ℝ), 0, 0⟩ = 8
        rw [Vec3.length_mk_x]
        exact abs_of_nonneg (by norm_num)
      rw [h8]
      norm_num
  · apply C5_momentum_blend.2
    · show ¬Vec3.lengthSq ⟨(1:ℝ), 0, 0⟩ = 0
      norm_num [Vec3.lengthSq]
    · show Vec3.dot ⟨(1:ℝ), 0, 0⟩ ⟨0, 0, -1⟩ < directionChangeThreshold
      norm_num [Vec3.dot, directionChangeThreshold]

/-- Claim C7: under the cooldown no jump occurs regardless of all other
state and processJump returns false with the state unchanged; a pending
in-buffer request that fails stays pending with no other change; once
the buffer window has elapsed only jumpRequested is cleared. -/
theorem C7_unconsumable_request :
    (∀ (t : ℝ) (s : PlayerState), t - s.lastJumpTime < jumpCooldown →
      processJump t s = (false, s)) ∧
    (∀ (t : ℝ) (s : PlayerState), s.jumpRequested = true →
      t - s.jumpBufferTime < jumpBufferWindow → (processJump t s).1 = false →
      jumpPhase t s = s) ∧
    (∀ (t : ℝ) (s : PlayerState), s.jumpRequested = true →
      ¬(t - s.jumpBufferTime < jumpBufferWindow) →
      jumpPhase t s = { s with jumpRequested := false }) :=
  ⟨fun t s h => processJump_cooldown t s h,
   fun t s h1 h2 h3 => jumpPhase_failed t s h1 h2 h3,
   fun t s h1 h2 => jumpPhase_expired t s h1 h2⟩

/-- Claim C7, witness: the three failure shapes at tick time 1000. -/
theorem C7_witness :
    processJump 1000 cool7State = (false, cool7State) ∧
    jumpPhase 1000 buf7State = buf7State ∧
    jumpPhase 1000 exp7State = { exp7State with jumpRequested := false } := by
  refine ⟨C7_unconsumable_request.1 1000 cool7State ?_,
    C7_unconsumable_request.2.1 1000 buf7State rfl ?_ ?_,
    C7_unconsumable_request.2.2 1000 exp7State rfl ?_⟩
  · show (1000:ℝ) - 950 < jumpCooldown
    norm_num [jumpCooldown]
  · show (1000:ℝ) - 950 < jumpBufferWindow
    norm_num [jumpBufferWindow]
  · rw [processJump_cooldown 1000 buf7State
      (by show (1000:ℝ) - 950 < jumpCooldown; norm_num [jumpCooldown])]
  · show ¬((1000:ℝ) - 0 < jumpBufferWindow)
    norm_num [jumpBufferWindow]

/-- Claim C9: the locomotion update writes only the X and Z components
of the physics body velocity; the Y component is untouched on every
path (both blending regimes, the jump forward boost, idle friction). -/
theorem C9_vertical_untouched (t dt : ℝ) (mi : Vec3) (s : PlayerState) :
    (movementUpdate t dt mi s).velocity.y = s.velocity.y :=
  movementUpdate_velocity_y t dt mi s

/-- Claim C1, amended: a latched press while airborne is dropped with no
effect only when no tick processes it inside the buffer window: on the
first tick at least jumpBufferWindow after the press timestamp (still
airborne), jumpRequested is cleared while jumpCount and the vertical
velocity are untouched.  (A tick inside the window instead consumes the
press as an air jump; see the counterexample.) -/
theorem C1_late_press_dropped (t dt : ℝ) (mi : Vec3) (s : PlayerState)
    (hreq : s.jumpRequested = true) (hair : s.onGround = false)
    (hlate : ¬(t - s.jumpBufferTime < jumpBufferWindow)) :
    (playerUpdate t dt false mi s).jumpCount = s.jumpCount ∧
    (playerUpdate t dt false mi s).velocity.y = s.velocity.y ∧
    (playerUpdate t dt false mi s).jumpRequested = false := by
  have htg := trackGround_fields t false s
  have htgjc : (trackGround t false s).jumpCount = s.jumpCount :=
    trackGround_jumpCount_no_edge t false s (by simp)
  have hjp : jumpPhase t (trackGround t false s) =
      { trackGround t false s with jumpRequested := false } := by
    refine jumpPhase_expired t _ (htg.2.2.1.trans hreq) ?_
    rw [htg.2.2.2.1]
    exact hlate
  refine ⟨?_, ?_, ?_⟩
  · show (movementUpdate t dt mi (jumpPhase t (trackGround t false s))).jumpCount
        = s.jumpCount
    rw [(movementUpdate_fields t dt mi _).1, hjp]
    exact htgjc
  · show (movementUpdate t dt mi (jumpPhase t (trackGround t false s))).velocity.y
        = s.velocity.y
    rw [movementUpdate_velocity_y, hjp]
    exact congrArg Vec3.y htg.1
  · show (movementUpdate t dt mi (jumpPhase t (trackGround t false s))).jumpRequested
        = false
    rw [(movementUpdate_fields t dt mi _).2.2, hjp]

/-- Claim C1, counterexample to the claim as stated: a tick 50 ms after
the press, airborne, out of coyote time, with the cooldown elapsed and
jumpCount 0, consumes the press as an air jump — jumpCount becomes 1
and the vertical velocity is written to jumpForce * 0.9 = 27/4, not
left untouched at 0. -/
theorem C1_counterexample :
    (playerUpdate 1000 (1/120) false ⟨0, 0, 0⟩ c1State).jumpCount = 1 ∧
    (playerUpdate 1000 (1/120) false ⟨0, 0, 0⟩ c1State).velocity.y = 27/4 ∧
    c1State.jumpCount = 0 ∧ c1State.velocity.y = 0 := by
  norm_num [playerUpdate, trackGround, jumpPhase, processJump, applyJumpBoost,
    movementUpdate, applyFriction, Vec3.lengthSq, Vec3.length,
    jumpCooldown, coyoteTime, jumpBufferWindow, jumpForce, Real.sqrt_zero,
    c1State, baseState]

/-- Claim C1, witness: the amended claim at a concrete stale press. -/
theorem C1_witness :
    (playerUpdate 1000 (1/120) false ⟨0, 0, 0⟩ c1wState).jumpCount
        = c1wState.jumpCount ∧
    (playerUpdate 1000 (1/120) false ⟨0, 0, 0⟩ c1wState).velocity.y
        = c1wState.velocity.y ∧
    (playerUpdate 1000 (1/120) false ⟨0, 0, 0⟩ c1wState).jumpRequested = false :=
  C1_late_press_dropped 1000 (1/120) ⟨0, 0, 0⟩ c1wState rfl rfl
    (by show ¬((1000:ℝ) - 0 < jumpBufferWindow); norm_num [jumpBufferWindow])

/-- Claim C3, amended: a pending unexpired request processed with the
cooldown elapsed, jumpCount 0 and (onGround or coyote) sets the vertical
velocity to exactly jumpForce, leaves X and Z untouched, sets jumpCount
to 1 and lastJumpTime to t and clears jumpRequested; but the
forward-boost one-shot is armed only when the player is actually on the
ground with a nonzero move direction — a coyote-granted jump does not
arm it. -/
theorem C3_first_jump (t : ℝ) (s : PlayerState)
    (hreq : s.jumpRequested = true)
    (hbuf : t - s.jumpBufferTime < jumpBufferWindow)
    (hcool : ¬(t - s.lastJumpTime < jumpCooldown))
    (hcount : s.jumpCount = 0)
    (hcan : s.onGround = true ∨ t - s.lastGroundedTime < coyoteTime) :
    (jumpPhase t s).velocity.y = jumpForce ∧
    (jumpPhase t s).velocity.x = s.velocity.x ∧
    (jumpPhase t s).velocity.z = s.velocity.z ∧
    (jumpPhase t s).jumpCount = 1 ∧
    (jumpPhase t s).lastJumpTime = t ∧
    (jumpPhase t s).jumpRequested = false ∧
    (jumpPhase t s).isJumping =
      (if s.moveDirection.lengthSq > 0 ∧ s.onGround = true then true
       else s.isJumping) := by
  have hp := processJump_first t s hcool hcan hcount
  have hsucc : (processJump t s).1 = true := by rw [hp]
  have hph := jumpPhase_success t s hreq hbuf hsucc
  rw [hph, hp]
  by_cases hb : s.moveDirection.lengthSq > 0 ∧ s.onGround = true
  · have hjb := applyJumpBoost_pos
      { s with velocity := ⟨s.velocity.x, jumpForce, s.velocity.z⟩,
               jumpCount := 1, lastJumpTime := t } hb
    rw [hjb, if_pos hb]
    exact ⟨rfl, rfl, rfl, rfl, rfl, rfl, rfl⟩
  · have hjb := applyJumpBoost_neg
      { s with velocity := ⟨s.velocity.x, jumpForce, s.velocity.z⟩,
               jumpCount := 1, lastJumpTime := t } hb
    rw [hjb, if_neg hb]
    exact ⟨rfl, rfl, rfl, rfl, rfl, rfl, rfl⟩

/-- Claim C3, counterexample to the claim as stated: a coyote-granted
first jump (airborne, 50 ms after leaving the ground, nonzero move
direction) fires — jumpCount 1, vertical velocity jumpForce — yet the
forward-boost one-shot signal is NOT raised, because
Movement.applyJumpBoost requires actual ground contact. -/
theorem C3_counterexample :
    (jumpPhase 1000 c3State).jumpCount = 1 ∧
    (jumpPhase 1000 c3State).velocity.y = jumpForce ∧
    (jumpPhase 1000 c3State).isJumping = false ∧
    c3State.onGround = false ∧ c3State.moveDirection.lengthSq > 0 := by
  norm_num [jumpPhase, processJump, applyJumpBoost, Vec3.lengthSq,
    jumpCooldown, coyoteTime, jumpBufferWindow, jumpForce, c3State, baseState]

/-- Claim C3, witness: the amended claim at a concrete grounded press. -/
theorem C3_witness :
    (jumpPhase 1000 c3wState).velocity.y = jumpForce ∧
    (jumpPhase 1000 c3wState).velocity.x = c3wState.velocity.x ∧
    (jumpPhase 1000 c3wState).velocity.z = c3wState.velocity.z ∧
    (jumpPhase 1000 c3wState).jumpCount = 1 ∧
    (jumpPhase 1000 c3wState).lastJumpTime = 1000 ∧
    (jumpPhase 1000 c3wState).jumpRequested = false ∧
    (jumpPhase 1000 c3wState).isJumping =
      (if c3wState.moveDirection.lengthSq > 0 ∧ c3wState.onGround = true then true
       else c3wState.isJumping) :=
  C3_first_jump 1000 c3wState rfl
    (by show (1000:ℝ) - 950 < jumpBufferWindow; norm_num [jumpBufferWindow])
    (by show ¬((1000:ℝ) - 0 < jumpCooldown); norm_num [jumpCooldown])
    rfl (Or.inl rfl)

/-- Claim C4: jumpCount is reset to 0 exactly on the tick where onGround
goes false to true, regardless of its prior value, is unchanged by the
ground bookkeeping on every other tick, and over a whole tick stays
within 0..maxJumps (for the program maxJumps = 2 at least 1). -/
theorem C4_jumpCount_invariant :
    (∀ (t : ℝ) (s : PlayerState), s.onGround = false →
      (trackGround t true s).jumpCount = 0) ∧
    (∀ (t : ℝ) (bog : Bool) (s : PlayerState), ¬(s.onGround = false ∧ bog = true) →
      (trackGround t bog s).jumpCount = s.jumpCount) ∧
    (∀ (t dt : ℝ) (bog : Bool) (mi : Vec3) (s : PlayerState),
      1 ≤ s.maxJumps → 0 ≤ s.jumpCount → s.jumpCount ≤ s.maxJumps →
      0 ≤ (playerUpdate t dt bog mi s).jumpCount ∧
      (playerUpdate t dt bog mi s).jumpCount ≤ s.maxJumps) :=
  ⟨fun t s h => trackGround_jumpCount_landing t s h,
   fun t bog s h => trackGround_jumpCount_no_edge t bog s h,
   fun t dt bog mi s h1 h2 h3 => playerUpdate_jumpCount_bounds t dt bog mi s h1 h2 h3⟩

/-- Claim C4, witness: a concrete landing edge, a concrete no-edge tick,
and a concrete full tick within bounds. -/
theorem C4_witness :
    (trackGround 1000 true { baseState with onGround := false }).jumpCount = 0 ∧
    (trackGround 1000 true baseState).jumpCount = baseState.jumpCount ∧
    (0 ≤ (playerUpdate 1000 (1/120) true ⟨0, 0, 0⟩ baseState).jumpCount ∧
      (playerUpdate 1000 (1/120) true ⟨0, 0, 0⟩ baseState).jumpCount ≤
        baseState.maxJumps) := by
  refine ⟨C4_jumpCount_invariant.1 1000 _ rfl,
    C4_jumpCount_invariant.2.1 1000 true baseState ?_,
    C4_jumpCount_invariant.2.2 1000 (1/120) true ⟨0, 0, 0⟩ baseState ?_ ?_ ?_⟩
  · simp [baseState]
  · show (1:ℤ) ≤ 2
    norm_num
  · show (0:ℤ) ≤ 0
    norm_num
  · show (0:ℤ) ≤ 2
    norm_num

/-- Claim C6: the speed cap rescales a too-fast blended velocity to
exactly maxSpeed preserving its direction (a positive scalar multiple)
and leaves slower velocities unchanged; consequently a run with constant
nonzero input, no pending or armed jump state, and initial horizontal
speed within the cap never exceeds maxSpeed on any tick. -/
theorem C6_speed_cap :
    (∀ v : Vec3, v.length > maxSpeed →
      capVelocity v = (maxSpeed / v.length) • v ∧
        (capVelocity v).length = maxSpeed) ∧
    (∀ v : Vec3, ¬v.length > maxSpeed → capVelocity v = v) ∧
    (∀ (mi : Vec3) (inputs : List TickInput) (s : PlayerState),
      ¬mi.lengthSq = 0 → s.jumpRequested = false → s.isJumping = false →
      horizSpeed s ≤ maxSpeed →
      horizSpeed (runTicks mi s inputs) ≤ maxSpeed) :=
  ⟨fun v h => capVelocity_of_gt v h,
   fun v h => capVelocity_eq_of_not_gt v h,
   fun mi inputs s hmi hreq hj hh => runTicks_horiz_le mi hmi inputs s hreq hj hh⟩

/-- Claim C6, witness: the cap at speeds 24 and 1, and a one-tick run
from rest. -/
theorem C6_witness :
    (capVelocity ⟨24, 0, 0⟩ =
        (maxSpeed / Vec3.length ⟨24, 0, 0⟩) • (⟨24, 0, 0⟩ : Vec3) ∧
      (capVelocity ⟨24, 0, 0⟩).length = maxSpeed) ∧
    capVelocity ⟨1, 0, 0⟩ = (⟨1, 0, 0⟩ : Vec3) ∧
    horizSpeed (runTicks ⟨0, 0, -1⟩ baseState [⟨1000, 1/120, true⟩]) ≤ maxSpeed := by
  have h24 : Vec3.length ⟨(24:ℝ), 0, 0⟩ = 24 := by
    rw [Vec3.length_mk_x]
    exact abs_of_nonneg (by norm_num)
  have h1 : Vec3.length ⟨(1:ℝ), 0, 0⟩ = 1 := by
    rw [Vec3.length_mk_x]
    exact abs_of_nonneg (by norm_num)
  refine ⟨C6_speed_cap.1 _ ?_, C6_speed_cap.2.1 _ ?_,
    C6_speed_cap.2.2 _ _ _ ?_ rfl rfl ?_⟩
  · rw [h24]
    norm_num [maxSpeed]
  · rw [h1]
    norm_num [maxSpeed]
  · norm_num [Vec3.lengthSq]
  · show Vec3.length ⟨(0:ℝ), 0, 0⟩ ≤ maxSpeed
    have h0 : Vec3.length ⟨(0:ℝ), 0, 0⟩ = 0 := Vec3.length_zero
    rw [h0]
    norm_num [maxSpeed]

/-- Claim C8: with zero input the tick applies only friction — the
horizontal speed never grows; under the negligible threshold both
horizontal components snap to exactly zero; otherwise both components
are multiplied by max(0, 1 - friction*dt) where the coefficient is
chosen by onGround and halved above speed 5. -/
theorem C8_idle_friction (t dt : ℝ) (mi : Vec3) (s : PlayerState)
    (hmi : mi.lengthSq = 0) (hdt : 0 ≤ dt) :
    horizSpeed (movementUpdate t dt mi s) ≤ horizSpeed s ∧
    (horizSpeed s < 0.01 →
      (movementUpdate t dt mi s).velocity.x = 0 ∧
      (movementUpdate t dt mi s).velocity.z = 0) ∧
    (¬horizSpeed s < 0.01 →
      (movementUpdate t dt mi s).velocity.x =
        s.velocity.x * max 0 (1 -
          (if horizSpeed s > 5 then
            (if s.onGround = true then groundFriction else airFriction) * 0.5
          else if s.onGround = true then groundFriction else airFriction) * dt) ∧
      (movementUpdate t dt mi s).velocity.z =
        s.velocity.z * max 0 (1 -
          (if horizSpeed s > 5 then
            (if s.onGround = true then groundFriction else airFriction) * 0.5
          else if s.onGround = true then groundFriction else airFriction) * dt)) := by
  have hm : movementUpdate t dt mi s =
      { applyFriction dt s with lastMoveInput := mi } := by
    simp only [movementUpdate]
    rw [if_pos hmi]
  refine ⟨?_, ?_, ?_⟩
  · rw [hm]
    show horizSpeed (applyFriction dt s) ≤ horizSpeed s
    exact applyFriction_horiz_le dt s hdt
  · intro h
    rw [hm, applyFriction_snap dt s h]
    exact ⟨rfl, rfl⟩
  · intro h
    rw [hm, applyFriction_damp dt s h]
    exact ⟨rfl, rfl⟩

/-- Claim C8, witness: an idle tick at horizontal speed 8 does not speed
the body up. -/
theorem C8_witness :
    horizSpeed (movementUpdate 1000 (1/120) ⟨0, 0, 0⟩ mom5State) ≤
      horizSpeed mom5State :=
  (C8_idle_friction 1000 (1/120) ⟨0, 0, 0⟩ mom5State
    (by norm_num [Vec3.lengthSq]) (by norm_num)).1

/-- Claim C10: the cap runs before the one-shot jump boost, so the speed
written by a tick with input is at most maxSpeed + jumpBoostForward *
walkSpeed = 13.2; and on a concrete ground-jump tick with capped
velocity aligned with the move direction it is exactly 66/5 = 13.2,
strictly above maxSpeed. -/
theorem C10_boost_after_cap :
    (∀ (t dt : ℝ) (mi : Vec3) (s : PlayerState), ¬mi.lengthSq = 0 →
      horizSpeed (movementUpdate t dt mi s) ≤
        maxSpeed + jumpBoostForward * walkSpeed) ∧
    horizSpeed (movementUpdate 1000 (1/1000) ⟨1, 0, 0⟩ c10State) = 66/5 ∧
    maxSpeed < 66/5 := by
  refine ⟨fun t dt mi s hmi => (movementUpdate_horiz_le t dt mi s hmi).1, ?_,
    by norm_num [maxSpeed]⟩
  have h400 : Real.sqrt 400 = 20 := by
    rw [show (400:ℝ) = 20 ^ 2 by norm_num, Real.sqrt_sq (by norm_num : (0:ℝ) ≤ 20)]
  have h179 : Real.sqrt (32041/100) = 179/10 := by
    rw [show (32041/100:ℝ) = (179/10) ^ 2 by norm_num,
      Real.sqrt_sq (by norm_num : (0:ℝ) ≤ 179/10)]
  have h66 : Real.sqrt (4356/25) = 66/5 := by
    rw [show (4356/25:ℝ) = (66/5) ^ 2 by norm_num,
      Real.sqrt_sq (by norm_num : (0:ℝ) ≤ 66/5)]
  norm_num [movementUpdate, normalizeInput, calculateMoveDirection,
    detectDirectionChange, applyAccelerationWithMomentum, preCapVelocity,
    capVelocity, horizSpeed, Vec3.lengthSq, Vec3.length, Vec3.normalize,
    Vec3.dot, walkSpeed, runSpeed, maxSpeed, groundAcceleration,
    airAcceleration, dirChangeBoostMultiplier, airControl, momentumRetention,
    jumpBoostForward, directionChangeThreshold, dirChangeWindow,
    Real.sin_zero, Real.cos_zero, Real.sqrt_zero, Real.sqrt_one,
    h400, h179, h66, min_def, c10State, baseState]

/-- Claim C10, witness: the 13.2 bound at a concrete tick. -/
theorem C10_witness :
    horizSpeed (movementUpdate 1000 (1/120) ⟨0, 0, -1⟩ baseState) ≤
      maxSpeed + jumpBoostForward * walkSpeed :=
  C10_boost_after_cap.1 1000 (1/120) ⟨0, 0, -1⟩ baseState
    (by norm_num [Vec3.lengthSq])

end FPS
